import Mathlib

/-!
Verification of the weewx Cheetah report generator
(src/bin/weewx/cheetahgenerator.py) against its natural-language
specification.  The Python module is shallowly embedded below: pure string
and option manipulation becomes Lean functions, the per-window generation
loop becomes explicit state passing over an association-list filesystem,
and exceptions become `Except`.  Parts of the repository referenced by the
module but not present under src (the weeutil helpers) are modelled from
the specification and marked as such in their doc comments.
-/

set_option autoImplicit false

namespace Cheetah

/-! ## String utilities (Python str.replace, basename, % formatting) -/

/-- Does the first character list start with the second one? -/
def leadsWith : List Char → List Char → Bool
  | _, [] => true
  | [], _ :: _ => false
  | c :: cs, p :: ps => c == p && leadsWith cs ps

/-- Does the first character list contain the second as a contiguous run?
Mirrors the Python test `s.find(pat) >= 0`. -/
def hasSub : List Char → List Char → Bool
  | _, [] => true
  | [], _ :: _ => false
  | c :: cs, p :: ps => leadsWith (c :: cs) (p :: ps) || hasSub cs (p :: ps)

/-- Fuel-driven worker for `pyReplace`.  Replaces non-overlapping
occurrences of `pat` left to right, exactly as Python `str.replace` does
for a nonempty pattern.  The fuel is the length of the scanned list. -/
def replAux (pat rep : List Char) : Nat → List Char → List Char
  | _, [] => []
  | 0, s => s
  | Nat.succ fuel, c :: cs =>
    if leadsWith (c :: cs) pat then
      rep ++ replAux pat rep fuel (List.drop (pat.length - 1) cs)
    else
      c :: replAux pat rep fuel cs

/-- Python `s.replace(pat, rep)` for a nonempty pattern: every
non-overlapping occurrence is replaced, scanning left to right. -/
def pyReplace (s pat rep : String) : String :=
  String.mk (replAux pat.toList rep.toList s.toList.length s.toList)

/-- Python `os.path.basename`: the part of the path after the last slash. -/
def baseName (s : String) : String :=
  String.mk (s.toList.foldl (fun acc c => if c == '/' then [] else acc ++ [c]) [])

/-- Python `"%4d" % n`: decimal, right-aligned in a field of 4, space padded. -/
def fmt4 (n : Int) : String :=
  let s := toString n
  if s.length < 4 then String.mk (List.replicate (4 - s.length) ' ') ++ s else s

/-- Python `"%02d" % n` for the month number: decimal, zero padded to 2. -/
def fmt02 (n : Int) : String :=
  let s := toString n
  if s.length < 2 then "0" ++ s else s

/-! ## Time spans and local civil time -/

/-- weeutil TimeSpan as used by the generator: a pair of epoch timestamps. -/
structure TimeSpan where
  start : Int
  stop : Int
deriving DecidableEq, Repr

/-- The result of `time.localtime` on an epoch timestamp, abstracted: the
civil year, the civil month number, and the strftime month name, all in
the local timezone.  The generator only reads these three projections. -/
structure Localtime where
  year : Int → Int
  month : Int → Int
  monthName : Int → String

/-- Modelled from the spec: `weeutil.weeutil.TimeSpan.includesArchiveTime`
is referenced at line 279 of src/bin/weewx/cheetahgenerator.py but weeutil
is not under src.  Per the spec a window includes a timestamp when the
timestamp falls inside the window, with inclusive stop as used for archive
records: start < t and t le stop. -/
def includesArchiveTime (w : TimeSpan) (t : Int) : Bool :=
  w.start < t && t ≤ w.stop

/-- An abstract local civil calendar: the index of the month (resp. year)
containing a timestamp, and the full span of a month (resp. year) given
its index.  Used only by the spec-modelled span generators. -/
structure CivilCalendar where
  monthIdx : Int → Int
  monthSpan : Int → TimeSpan
  yearIdx : Int → Int
  yearSpan : Int → TimeSpan

/-- Modelled from the spec: `weeutil.weeutil.genMonthSpans` is installed in
`CheetahGenerator.generator_dict` (line 123) but weeutil is not under src.
Spec 4.1: one window per calendar month from the month containing start
through the month containing stop, ascending; if start > stop the result
is the empty sequence, not an error. -/
def genMonthSpans (C : CivilCalendar) (startTs stopTs : Int) : List TimeSpan :=
  if stopTs < startTs then []
  else (List.range ((C.monthIdx stopTs - C.monthIdx startTs).toNat + 1)).map
    (fun i => C.monthSpan (C.monthIdx startTs + i))

/-- Modelled from the spec: `weeutil.weeutil.genYearSpans` is installed in
`CheetahGenerator.generator_dict` (line 124) but weeutil is not under src.
Analogous to `genMonthSpans`, one window per calendar year. -/
def genYearSpans (C : CivilCalendar) (startTs stopTs : Int) : List TimeSpan :=
  if stopTs < startTs then []
  else (List.range ((C.yearIdx stopTs - C.yearIdx startTs).toNat + 1)).map
    (fun i => C.yearSpan (C.yearIdx startTs + i))

/-- The span generator selection of generate, lines 250-256: modes found in
`generator_dict` use the corresponding span generator, any other mode uses
the lambda `[TimeSpan(start_ts, stop_ts)]`. -/
def spangenFor (C : CivilCalendar) (mode : String) (startTs stopTs : Int) : List TimeSpan :=
  if mode == "SummaryByMonth" then genMonthSpans C startTs stopTs
  else if mode == "SummaryByYear" then genYearSpans C startTs stopTs
  else [TimeSpan.mk startTs stopTs]

/-- Membership of a mode string in `CheetahGenerator.generator_dict`. -/
def isSummaryMode (m : String) : Bool :=
  m == "SummaryByMonth" || m == "SummaryByYear"

/-! ## The outputted label dictionary (setup line 155, generate lines 261-270) -/

/-- The two lists held by `self.outputted_dict`. -/
structure OutDict where
  byMonth : List String
  byYear : List String
deriving DecidableEq, Repr

/-- Lines 261-270 of generate: record the period label of a summary window.
Faithful to the source: the ByMonth branch tests membership of the bare
month string `_mo_str` in the list before appending the combined
`"YYYY-MM"` label, while the ByYear branch tests the year string itself. -/
def recordLabel (lt : Localtime) (mode : String) (w : TimeSpan) (d : OutDict) : OutDict :=
  if isSummaryMode mode then
    let yrStr := fmt4 (lt.year w.start)
    let d1 :=
      if mode == "SummaryByMonth" then
        let moStr := fmt02 (lt.month w.start)
        if d.byMonth.contains moStr then d
        else OutDict.mk (d.byMonth ++ [yrStr ++ "-" ++ moStr]) d.byYear
      else d
    if mode == "SummaryByYear" && !(d1.byYear.contains yrStr) then
      OutDict.mk d1.byMonth (d1.byYear ++ [yrStr])
    else d1
  else d

/-! ## Filesystem model -/

/-- Metadata and content of one file on disk. -/
structure FileData where
  mtime : Int
  content : String
deriving DecidableEq, Repr

/-- The filesystem as a key-unique association list from path to file. -/
abbrev FS := List (String × FileData)

/-- Look a path up in the filesystem. -/
def fsLookup (fs : FS) (k : String) : Option FileData :=
  (fs.find? (fun p => p.1 == k)).map Prod.snd

/-- Remove a path (os.unlink on an existing file; identity otherwise). -/
def fsErase (fs : FS) (k : String) : FS :=
  fs.filter (fun p => !(p.1 == k))

/-- Create or overwrite a file (open with mode w plus the write). -/
def fsWrite (fs : FS) (k : String) (d : FileData) : FS :=
  (k, d) :: fsErase fs k

/-- `os.path.getmtime`, returning none when the path does not exist
(the Python call raises os.error in that case). -/
def fsMtime (fs : FS) (k : String) : Option Int :=
  (fsLookup fs k).map FileData.mtime

/-! ## The two skip rules of generate -/

/-- Lines 282-293 of generate: the staleness skip.  `staleAge` is the
parsed stale_age option (absent when not configured), `lastMod` the mtime
of the destination (none when `os.path.getmtime` raised os.error because
the file does not exist, in which case the except branch passes). -/
def staleSkip (staleAge : Option Int) (lastMod : Option Int) (tNow : Int) : Bool :=
  match staleAge with
  | none => false
  | some stale =>
    match lastMod with
    | none => false
    | some m => tNow - m < stale

/-- Lines 276-280 of generate: the summary skip.  Skip when the mode is a
summary mode, the destination exists and the window does not include the
effective stop timestamp. -/
def summarySkip (mode : String) (destExists : Bool) (w : TimeSpan) (stopTs : Int) : Bool :=
  isSummaryMode mode && destExists && !(includesArchiveTime w stopTs)

/-- Line 248 of generate: `stop_ts = gen_ts if gen_ts else
default_archive.lastGoodStamp()`.  Python truthiness: a gen_ts of 0 is
falsy and falls back to the last good stamp, exactly like None. -/
def effectiveStop (genTs : Option Int) (lastGood : Int) : Int :=
  match genTs with
  | some t => if t == 0 then lastGood else t
  | none => lastGood

/-- Follows the wording of the claim and of spec 4.6 step 2: the supplied
reference timestamp when one is supplied, otherwise the last valid
timestamp of the data source.  Kept for comparison with `effectiveStop`. -/
def specEffectiveStop (genTs : Option Int) (lastGood : Int) : Int :=
  genTs.getD lastGood

/-! ## Destination filename derivation (lines 353-371) -/

/-- `CheetahGenerator._getFileName`, lines 353-371.  Faithful to the
source: `os.path.basename(template).replace(.tmpl, empty)` removes every
occurrence of the substring .tmpl, and the placeholder substitution runs
only when YYYY or MM occurs in the result. -/
def getFileName (lt : Localtime) (template : String) (w : TimeSpan) : String :=
  let f := pyReplace (baseName template) ".tmpl" ""
  if hasSub f.toList "YYYY".toList || hasSub f.toList "MM".toList then
    let yrStr := fmt4 (lt.year w.start)
    let moStr := fmt02 (lt.month w.start)
    pyReplace (pyReplace f "YYYY" yrStr) "MM" moStr
  else f

/-- Strip one trailing .tmpl only, as the docstring of `_getFileName` and
the claim describe the intended behaviour. -/
def stripTrailingTmpl (s : String) : String :=
  if leadsWith s.toList.reverse ".tmpl".toList.reverse then
    String.mk (s.toList.take (s.toList.length - 5))
  else s

/-- Follows the wording of the claim: basename, then strip only a trailing
.tmpl, then substitute the placeholders when present.  Kept for comparison
with `getFileName`. -/
def specFileName (lt : Localtime) (template : String) (w : TimeSpan) : String :=
  let f := stripTrailingTmpl (baseName template)
  if hasSub f.toList "YYYY".toList || hasSub f.toList "MM".toList then
    let yrStr := fmt4 (lt.year w.start)
    let moStr := fmt02 (lt.month w.start)
    pyReplace (pyReplace f "YYYY" yrStr) "MM" moStr
  else f

/-! ## The per-window generation loop (generate, lines 259-320) -/

/-- The per-report options consumed inside the window loop, as resolved by
`_prepGen` and `accumulateLeaves` before the loop starts. -/
structure RepCfg where
  mode : String
  template : String
  destDir : String
  staleAge : Option Int
  lt : Localtime
  stopTs : Int

/-- The behaviour of the external collaborators for one window: whether
`_getSearchList` returns normally, whether `Cheetah.Template.Template`
construction returns normally, whether opening the temporary file
succeeds, the rendered text produced while the template object is
stringified into the file (none when rendering raises), whether
`os.rename` succeeds, and the current wall-clock time. -/
structure WindowEnv where
  searchListOk : Bool
  compileOk : Bool
  openOk : Bool
  render : Option String
  renameOk : Bool
  t_now : Int
deriving DecidableEq, Repr

/-- The two per-window failure points of generate that are NOT inside the
try statement of lines 303-318: search list composition (line 295) and
template object construction (line 298). -/
inductive GenPhaseError where
  | searchListError
  | compileError
deriving DecidableEq, Repr

/-- `_fullname` for a window: `os.path.join(dest_dir, _filename)`. -/
def destPath (cfg : RepCfg) (w : TimeSpan) : String :=
  cfg.destDir ++ "/" ++ getFileName cfg.lt cfg.template w

/-- `tmpname = _fullname + .tmp` (line 302). -/
def tmpPath (cfg : RepCfg) (w : TimeSpan) : String :=
  destPath cfg w ++ ".tmp"

/-- The try/except/else/finally statement of lines 303-318, as a pure
state transformer.  Every branch ends with the finally clause, which
unlinks the temporary path and ignores a missing file.  The Bool is
whether the else branch ran, i.e. whether ngen is incremented. -/
def writePhase (fs : FS) (tmp full : String) (env : WindowEnv) : FS × Bool :=
  if env.openOk then
    match env.render with
    | none =>
      (fsErase (fsWrite fs tmp (FileData.mk env.t_now "")) tmp, false)
    | some txt =>
      let fs1 := fsWrite fs tmp (FileData.mk env.t_now (txt ++ "\n"))
      if env.renameOk then
        (fsErase (fsWrite (fsErase fs1 tmp) full (FileData.mk env.t_now (txt ++ "\n"))) tmp, true)
      else
        (fsErase fs1 tmp, false)
  else
    (fsErase fs tmp, false)

/-- One iteration of the window loop of generate (lines 259-318): record
the period label, derive the destination, apply the summary skip and the
staleness skip, compose the search list and construct the template (both
outside the try statement, so their failures escape), then run the write
phase.  An escaping exception carries the state at the raise point. -/
def processWindow (cfg : RepCfg) (fs : FS) (od : OutDict) (w : TimeSpan)
    (env : WindowEnv) : Except (GenPhaseError × FS × OutDict) (FS × OutDict × Bool) :=
  let od1 := recordLabel cfg.lt cfg.mode w od
  let full := destPath cfg w
  if summarySkip cfg.mode (fsLookup fs full).isSome w cfg.stopTs then
    Except.ok (fs, od1, false)
  else if staleSkip cfg.staleAge (fsMtime fs full) env.t_now then
    Except.ok (fs, od1, false)
  else if !env.searchListOk then
    Except.error (GenPhaseError.searchListError, fs, od1)
  else if !env.compileOk then
    Except.error (GenPhaseError.compileError, fs, od1)
  else
    let r := writePhase fs (tmpPath cfg w) full env
    Except.ok (r.1, od1, r.2)

/-- Modelled from the spec: the per-window steps 4a-4f of the
GenerationPipeline (spec 4.6) as a total function.  Record the label,
derive the destination, skip per the two rules without touching the
filesystem, then attempt the render: on success the destination is
atomically replaced by the rendered output and the temporary path is
removed; on any failure the temporary path is removed, the destination is
untouched and the count is not incremented. -/
def processWindowSpec (cfg : RepCfg) (fs : FS) (od : OutDict) (w : TimeSpan)
    (env : WindowEnv) : FS × OutDict × Bool :=
  let od1 := recordLabel cfg.lt cfg.mode w od
  let full := destPath cfg w
  let tmp := tmpPath cfg w
  if summarySkip cfg.mode (fsLookup fs full).isSome w cfg.stopTs then
    (fs, od1, false)
  else if staleSkip cfg.staleAge (fsMtime fs full) env.t_now then
    (fs, od1, false)
  else if env.openOk && env.render.isSome && env.renameOk then
    (fsWrite (fsErase fs tmp) full (FileData.mk env.t_now (env.render.getD "" ++ "\n")), od1, true)
  else
    (fsErase fs tmp, od1, false)

/-- The window loop of generate: fold `processWindow` over the windows,
threading the filesystem, the outputted dictionary and ngen, and
propagating any escaping exception. -/
def genLoop (cfg : RepCfg) : FS → OutDict → List (TimeSpan × WindowEnv) → Nat →
    Except (GenPhaseError × FS × OutDict) (FS × OutDict × Nat)
  | fs, od, [], n => Except.ok (fs, od, n)
  | fs, od, (w, env) :: rest, n =>
    match processWindow cfg fs od w env with
    | Except.ok r => genLoop cfg r.1 r.2.1 rest (if r.2.2 then n + 1 else n)
    | Except.error e => Except.error e

/-- Modelled from the spec: the total skip-and-continue loop of
GenerationPipeline step 4, folding `processWindowSpec` over the windows. -/
def genLoopSpec (cfg : RepCfg) : FS → OutDict → List (TimeSpan × WindowEnv) → Nat →
    FS × OutDict × Nat
  | fs, od, [], n => (fs, od, n)
  | fs, od, (w, env) :: rest, n =>
    let r := processWindowSpec cfg fs od w env
    genLoopSpec cfg r.1 r.2.1 rest (if r.2.2 then n + 1 else n)

/-! ## Search list composition (_getSearchList, lines 322-351) -/

/-- One entry of the composed Cheetah search list: the synthetic leading
dictionary of line 332, the outputted dictionary of line 335, or an opaque
object contributed by an extension. -/
inductive SLEntry (α : Type) where
  | synth (monthName : String) (yearName : Int) (encoding : String) : SLEntry α
  | snap (d : OutDict) : SLEntry α
  | ext (a : α) : SLEntry α
deriving DecidableEq, Repr

/-- `CheetahGenerator.getToDateSearchList`, lines 349-351: the backwards
compatible entry, always the empty list. -/
def getToDateSearchList (α δ : Type) (archivedb statsdb : δ) (w : TimeSpan) :
    List (SLEntry α) :=
  []

/-- `CheetahGenerator._getSearchList`, lines 322-347.  `modern` embeds
`self.search_list_objs` (each `add_searchlist` returns a list), `legacy`
embeds `self.search_list_exts` (each `get_extension` returns one object),
and `dbf` the database factory handed to both (the legacy providers
receive the extracted database twice, line 329). -/
def getSearchList (α δ : Type) (lt : Localtime) (enc : String) (od : OutDict)
    (modern : List (TimeSpan → δ → List α)) (legacy : List (TimeSpan → δ → α))
    (dbf : δ) (w : TimeSpan) : List (SLEntry α) :=
  let sl0 : List (SLEntry α) :=
    [SLEntry.synth (lt.monthName w.start) (lt.year w.start) enc, SLEntry.snap od]
  let sl1 := modern.foldl (fun acc p => acc ++ (p w dbf).map SLEntry.ext) sl0
  let sl2 := sl1 ++ legacy.map (fun p => SLEntry.ext (p w dbf))
  sl2 ++ getToDateSearchList α δ dbf dbf w

/-! ## Configuration sections and option accumulation (run line 141,
generate lines 213-221) -/

/-- The scalar options of one configuration section. -/
structure ConfigSec where
  scalars : List (String × String)
deriving DecidableEq, Repr

/-- Read a scalar option of a section. -/
def getScalar (n : ConfigSec) (k : String) : Option String :=
  (n.scalars.find? (fun p => p.1 == k)).map Prod.snd

/-- ConfigObj assignment `section[k] = v`: replace the existing scalar or
append a new one. -/
def setScalar (n : ConfigSec) (k v : String) : ConfigSec :=
  if n.scalars.any (fun p => p.1 == k) then
    ConfigSec.mk (n.scalars.map (fun p => if p.1 == k then (k, v) else p))
  else
    ConfigSec.mk (n.scalars ++ [(k, v)])

/-- Lines 214-219 of generate: before recursing into a subsection, a
subsection named SummaryByMonth or SummaryByYear that does not set
summarize_by itself gets it set to its own name. -/
def defaultSummary (name : String) (n : ConfigSec) : ConfigSec :=
  if (getScalar n "summarize_by").isSome then n
  else if name == "SummaryByMonth" then setScalar n "summarize_by" "SummaryByMonth"
  else if name == "SummaryByYear" then setScalar n "summarize_by" "SummaryByYear"
  else n

/-- Modelled from the spec: `weeutil.weeutil.accumulateLeaves` (line 238)
is not under src.  Spec 4.5 and 3: the effective options of a leaf merge
the scalar options of all ancestors, nearer nodes winning on conflict.
The path is given root first. -/
def accumulateLeaves (path : List ConfigSec) (k : String) : Option String :=
  path.foldl
    (fun acc n =>
      match getScalar n k with
      | some v => some v
      | none => acc)
    none

/-! ## Concrete instances used by witnesses and counterexamples -/

/-- A localtime whose civil date is January 2024 for every timestamp. -/
def ltJan2024 : Localtime :=
  Localtime.mk (fun _ => 2024) (fun _ => 1) (fun _ => "Jan")

/-- A trivial civil calendar, used where the calendar is irrelevant. -/
def someCal : CivilCalendar :=
  CivilCalendar.mk (fun _ => 0) (fun _ => TimeSpan.mk 0 0)
    (fun _ => 0) (fun _ => TimeSpan.mk 0 0)

/-- A concrete non-summary report configuration. -/
def cfg0 : RepCfg :=
  RepCfg.mk "None" "a.tmpl" "out" none ltJan2024 5

/-- A window environment where everything succeeds. -/
def envOk : WindowEnv :=
  WindowEnv.mk true true true (some "hello") true 50

/-- A window environment where rendering raises while the template is
written out (caught by the try statement). -/
def envRenderFail : WindowEnv :=
  WindowEnv.mk true true true none true 50

/-- A window environment where template construction raises (line 298,
outside the try statement). -/
def envCompileFail : WindowEnv :=
  WindowEnv.mk true false true (some "hello") true 50

/-- The empty outputted dictionary, as initialised by setup (line 155). -/
def od0 : OutDict := OutDict.mk [] []

/-- A filesystem already holding a destination for cfg0. -/
def fsPre : FS := [("out/a", FileData.mk 10 "old")]

/-- A single window. -/
def w0 : TimeSpan := TimeSpan.mk 0 5

/-- One compile-failing window for the C1 counterexample. -/
def wsCompileFail : List (TimeSpan × WindowEnv) := [(w0, envCompileFail)]

/-- A render-failing window followed by a succeeding one, for the C1
amended-claim witness. -/
def wsMixed : List (TimeSpan × WindowEnv) := [(w0, envRenderFail), (TimeSpan.mk 6 9, envOk)]

/-- A top-level generator section that configures summarize_by itself. -/
def top0 : ConfigSec := ConfigSec.mk [("summarize_by", "SummaryByMonth")]

/-- A path of one ordinary subsection holding a template. -/
def path0 : List (String × ConfigSec) :=
  [("ToDate", ConfigSec.mk [("template", "index.html.tmpl")])]

/-! ## Filesystem lemmas -/

theorem fsLookup_fsErase_self (fs : FS) (k : String) :
    fsLookup (fsErase fs k) k = none := by
  induction fs with
  | nil => rfl
  | cons a t ih =>
    by_cases h : a.1 == k
    · simpa [fsErase, List.filter_cons, h] using ih
    · simpa [fsErase, fsLookup, List.filter_cons, List.find?, h] using ih

theorem fsLookup_fsErase_ne (fs : FS) {k k' : String} (h : k ≠ k') :
    fsLookup (fsErase fs k) k' = fsLookup fs k' := by
  induction fs with
  | nil => rfl
  | cons a t ih =>
    by_cases ha : a.1 == k
    · have ha' : (a.1 == k') = false := by
        have : a.1 = k := by simpa using ha
        simp [this, h]
      simp [fsErase, fsLookup, List.filter_cons, List.find?, ha, ha'] at ih ⊢
      exact ih
    · by_cases hb : a.1 == k'
      · simp [fsErase, fsLookup, List.filter_cons, List.find?, ha, hb]
      · simp [fsErase, fsLookup, List.filter_cons, List.find?, ha, hb] at ih ⊢
        exact ih

theorem fsErase_fsErase (fs : FS) (k : String) :
    fsErase (fsErase fs k) k = fsErase fs k := by
  simp [fsErase, List.filter_filter]

theorem fsErase_comm (fs : FS) (k k' : String) :
    fsErase (fsErase fs k) k' = fsErase (fsErase fs k') k := by
  simp only [fsErase, List.filter_filter]
  congr 1
  funext a
  exact Bool.and_comm _ _

theorem fsErase_fsWrite_self (fs : FS) (k : String) (d : FileData) :
    fsErase (fsWrite fs k d) k = fsErase fs k := by
  simp [fsWrite, fsErase, List.filter_cons, List.filter_filter]

theorem fsErase_fsWrite_ne (fs : FS) {k k' : String} (d : FileData) (h : k' ≠ k) :
    fsErase (fsWrite fs k' d) k = fsWrite (fsErase fs k) k' d := by
  have hb : (k' == k) = false := by simp [h]
  simp only [fsWrite, fsErase, List.filter_cons, hb, Bool.not_false, if_true]
  have h2 := fsErase_comm fs k' k
  simp only [fsErase] at h2
  rw [h2]

theorem fsLookup_fsWrite_self (fs : FS) (k : String) (d : FileData) :
    fsLookup (fsWrite fs k d) k = some d := by
  simp [fsWrite, fsLookup, List.find?]

theorem fsLookup_fsWrite_ne (fs : FS) {k k' : String} (d : FileData) (h : k ≠ k') :
    fsLookup (fsWrite fs k d) k' = fsLookup fs k' := by
  have hb : (k == k') = false := by simp [h]
  simp [fsWrite, fsLookup, List.find?, hb]
  have := fsLookup_fsErase_ne fs h
  simpa [fsLookup] using this

/-- A string never equals itself with the temporary suffix appended. -/
theorem ne_append_tmp (s : String) : s ≠ s ++ ".tmp" := by
  intro h
  have h2 : s.data = s.data ++ ".tmp".data := congrArg String.data h
  have h3 := congrArg List.length h2
  simp at h3

/-- The destination and the temporary path of a window differ. -/
theorem destPath_ne_tmpPath (cfg : RepCfg) (w : TimeSpan) :
    destPath cfg w ≠ tmpPath cfg w :=
  ne_append_tmp (destPath cfg w)

/-! ## The write phase and the per-window refinement -/

/-- The try/except/else/finally write phase collapses to: on full success
the destination is replaced with the rendered output and the temporary
path is removed, on any failure only the temporary path is removed. -/
theorem writePhase_eq (fs : FS) (tmp full : String) (env : WindowEnv)
    (hne : full ≠ tmp) :
    writePhase fs tmp full env =
      ((if env.openOk && env.render.isSome && env.renameOk then
          fsWrite (fsErase fs tmp) full (FileData.mk env.t_now (env.render.getD "" ++ "\n"))
        else fsErase fs tmp),
       env.openOk && env.render.isSome && env.renameOk) := by
  cases hopen : env.openOk <;> cases hrender : env.render <;>
    cases hrename : env.renameOk <;>
      simp [writePhase, hopen, hrender, hrename, fsErase_fsWrite_self,
        fsErase_fsWrite_ne _ _ hne, fsErase_fsErase]

/-- When search list composition and template construction both return
normally, one window loop iteration never raises and agrees with the
spec-modelled per-window step. -/
theorem processWindow_ok (cfg : RepCfg) (fs : FS) (od : OutDict) (w : TimeSpan)
    (env : WindowEnv) (h1 : env.searchListOk = true) (h2 : env.compileOk = true) :
    processWindow cfg fs od w env = Except.ok (processWindowSpec cfg fs od w env) := by
  unfold processWindow processWindowSpec
  by_cases hs : summarySkip cfg.mode (fsLookup fs (destPath cfg w)).isSome w cfg.stopTs
  · simp [hs]
  · by_cases hst : staleSkip cfg.staleAge (fsMtime fs (destPath cfg w)) env.t_now
    · simp [hs, hst]
    · simp only [hs, hst, h1, h2, Bool.not_true, if_false, if_true,
        Bool.false_eq_true, writePhase_eq fs (tmpPath cfg w) (destPath cfg w) env
          (destPath_ne_tmpPath cfg w)]
      cases h : (env.openOk && env.render.isSome && env.renameOk) <;> simp [h]

/-! ## Claim C1: exception containment of the window loop -/

/-- Claim C1, counterexample.  A window whose template construction
(line 298, outside the try statement of lines 303-318) raises makes
generate itself raise: the loop returns an escaping exception, not a
count, refuting the claim that every failure while producing one window
is caught. -/
theorem genLoop_compile_error_propagates :
    genLoop cfg0 [] od0 wsCompileFail 0 =
      Except.error (GenPhaseError.compileError, [], od0) := rfl

/-- Claim C1, amended.  When search list composition and template object
construction return normally for every window, the window loop of
generate never raises: it returns exactly the count and state of the
spec-modelled total skip-and-continue pipeline, in which a failed write
phase is logged, does not increment the count, leaves only the removal of
the temporary path, and iteration continues with the next window. -/
theorem genLoop_total_of_phases_ok (cfg : RepCfg) :
    ∀ (ws : List (TimeSpan × WindowEnv)) (fs : FS) (od : OutDict) (n : Nat),
      (∀ p ∈ ws, p.2.searchListOk = true ∧ p.2.compileOk = true) →
      genLoop cfg fs od ws n = Except.ok (genLoopSpec cfg fs od ws n) := by
  intro ws
  induction ws with
  | nil => intro fs od n _; rfl
  | cons p rest ih =>
    intro fs od n h
    obtain ⟨w, env⟩ := p
    have hp := h (w, env) (List.mem_cons_self _ _)
    have hrest : ∀ q ∈ rest, q.2.searchListOk = true ∧ q.2.compileOk = true :=
      fun q hq => h q (List.mem_cons_of_mem _ hq)
    simp only [genLoop, genLoopSpec, processWindow_ok cfg fs od w env hp.1 hp.2]
    exact ih _ _ _ hrest

/-- Claim C1 witness: a run with one render-failing window and one fully
succeeding window satisfies the hypothesis and returns a count. -/
theorem genLoop_total_of_phases_ok_witness :
    (∀ p ∈ wsMixed, p.2.searchListOk = true ∧ p.2.compileOk = true) ∧
    genLoop cfg0 [] od0 wsMixed 0 = Except.ok (genLoopSpec cfg0 [] od0 wsMixed 0) :=
  ⟨by decide, genLoop_total_of_phases_ok cfg0 wsMixed [] od0 0 (by decide)⟩

/-! ## Claim C2: temporary-file isolation -/

/-- Claim C2.  For a window that is not skipped and whose search list and
template construction succeed, the attempt always terminates with: the
temporary path absent afterwards (success or failure), the generated flag
true exactly when open, render and rename all succeed, the pre-existing
destination untouched whenever the flag is false, and the destination
holding exactly the rendered output when the flag is true. -/
theorem processWindow_temp_file_isolation (cfg : RepCfg) (fs : FS) (od : OutDict)
    (w : TimeSpan) (env : WindowEnv)
    (h1 : summarySkip cfg.mode (fsLookup fs (destPath cfg w)).isSome w cfg.stopTs = false)
    (h2 : staleSkip cfg.staleAge (fsMtime fs (destPath cfg w)) env.t_now = false)
    (h3 : env.searchListOk = true) (h4 : env.compileOk = true) :
    ∃ fs1 od1 b, processWindow cfg fs od w env = Except.ok (fs1, od1, b) ∧
      b = (env.openOk && env.render.isSome && env.renameOk) ∧
      fsLookup fs1 (tmpPath cfg w) = none ∧
      (b = false → fsLookup fs1 (destPath cfg w) = fsLookup fs (destPath cfg w)) ∧
      (b = true → fsLookup fs1 (destPath cfg w) =
        some (FileData.mk env.t_now (env.render.getD "" ++ "\n"))) := by
  rw [processWindow_ok cfg fs od w env h3 h4]
  unfold processWindowSpec
  simp only [h1, h2, Bool.false_eq_true, if_false]
  cases hat : (env.openOk && env.render.isSome && env.renameOk) with
  | false =>
    simp only [Bool.false_eq_true, if_false]
    refine ⟨_, _, false, rfl, rfl, fsLookup_fsErase_self fs (tmpPath cfg w), ?_, ?_⟩
    · intro _
      exact fsLookup_fsErase_ne fs (fun hh => destPath_ne_tmpPath cfg w hh.symm)
    · intro hc; cases hc
  | true =>
    simp only [if_true]
    refine ⟨_, _, true, rfl, rfl, ?_, ?_, ?_⟩
    · rw [fsLookup_fsWrite_ne _ _ (destPath_ne_tmpPath cfg w)]
      exact fsLookup_fsErase_self fs (tmpPath cfg w)
    · intro hc; cases hc
    · intro _
      exact fsLookup_fsWrite_self _ _ _

/-- Claim C2 witness: with a pre-existing destination and a render that
raises, the attempt returns without generating, the temporary path is
gone and the old destination is intact. -/
theorem processWindow_temp_file_isolation_witness :
    summarySkip cfg0.mode (fsLookup fsPre (destPath cfg0 w0)).isSome w0 cfg0.stopTs = false ∧
    (∃ fs1 od1 b, processWindow cfg0 fsPre od0 w0 envRenderFail = Except.ok (fs1, od1, b) ∧
      b = (envRenderFail.openOk && envRenderFail.render.isSome && envRenderFail.renameOk) ∧
      fsLookup fs1 (tmpPath cfg0 w0) = none ∧
      (b = false → fsLookup fs1 (destPath cfg0 w0) = fsLookup fsPre (destPath cfg0 w0)) ∧
      (b = true → fsLookup fs1 (destPath cfg0 w0) =
        some (FileData.mk envRenderFail.t_now (envRenderFail.render.getD "" ++ "\n")))) :=
  ⟨by decide, processWindow_temp_file_isolation cfg0 fsPre od0 w0 envRenderFail
    (by decide) (by decide) rfl rfl⟩

/-! ## Claim C3: the summary skip rule -/

/-- Claim C3, counterexample.  A supplied reference timestamp of 0 is
falsy in Python, so line 248 falls back to the last good stamp: the code
then skips a summary window that does include the supplied reference
timestamp 0, contradicting the claim, whose effective reference timestamp
is the supplied one whenever one is supplied. -/
theorem summarySkip_zero_reference_counterexample :
    effectiveStop (some 0) 100 = 100 ∧
    specEffectiveStop (some 0) 100 = 0 ∧
    includesArchiveTime (TimeSpan.mk (-5) 10) (specEffectiveStop (some 0) 100) = true ∧
    summarySkip "SummaryByMonth" true (TimeSpan.mk (-5) 10)
      (effectiveStop (some 0) 100) = true := by decide

/-- Claim C3, amended.  With the effective reference timestamp taken as
the supplied reference timestamp when that is nonzero and the data source
last valid timestamp otherwise, the summary skip fires iff the mode is a
summary mode, the destination exists and the window does not include the
effective reference timestamp; a window including it is never skipped by
this rule, the rule never applies to mode None, and when it fires the
window loop iteration returns with the filesystem untouched and nothing
generated. -/
theorem summarySkip_characterization :
    (∀ (mode : String) (ex : Bool) (w : TimeSpan) (genTs : Option Int) (lastGood : Int),
      (summarySkip mode ex w (effectiveStop genTs lastGood) = true ↔
        isSummaryMode mode = true ∧ ex = true ∧
        includesArchiveTime w (effectiveStop genTs lastGood) = false)) ∧
    (∀ (mode : String) (ex : Bool) (w : TimeSpan) (t : Int),
      includesArchiveTime w t = true → summarySkip mode ex w t = false) ∧
    (∀ (ex : Bool) (w : TimeSpan) (t : Int), summarySkip "None" ex w t = false) ∧
    (∀ (cfg : RepCfg) (fs : FS) (od : OutDict) (w : TimeSpan) (env : WindowEnv),
      summarySkip cfg.mode (fsLookup fs (destPath cfg w)).isSome w cfg.stopTs = true →
      processWindow cfg fs od w env =
        Except.ok (fs, recordLabel cfg.lt cfg.mode w od, false)) := by
  refine ⟨?_, ?_, ?_, ?_⟩
  · intro mode ex w genTs lastGood
    simp [summarySkip, Bool.and_eq_true, Bool.not_eq_true', and_assoc]
  · intro mode ex w t h
    simp [summarySkip, h]
  · intro ex w t
    simp [summarySkip, isSummaryMode]
  · intro cfg fs od w env h
    unfold processWindow
    simp [h]

/-- Claim C3 witness: a summary window including the effective reference
timestamp is not skipped. -/
theorem summarySkip_characterization_witness :
    includesArchiveTime w0 5 = true ∧ summarySkip "SummaryByMonth" true w0 5 = false :=
  ⟨by decide, summarySkip_characterization.2.1 "SummaryByMonth" true w0 5 (by decide)⟩

/-! ## Claim C4: the staleness skip rule -/

/-- Claim C4.  The staleness skip fires iff a staleness age is configured,
the destination exists, and now minus its mtime is below the age; it never
fires when the age is unset or the destination is missing; and when it
fires (and the summary rule did not), the window loop iteration returns
with the filesystem untouched and nothing generated. -/
theorem staleSkip_characterization :
    (∀ (st mt : Option Int) (tNow : Int),
      (staleSkip st mt tNow = true ↔
        ∃ s, st = some s ∧ ∃ m, mt = some m ∧ tNow - m < s)) ∧
    (∀ (mt : Option Int) (tNow : Int), staleSkip none mt tNow = false) ∧
    (∀ (st : Option Int) (tNow : Int), staleSkip st none tNow = false) ∧
    (∀ (cfg : RepCfg) (fs : FS) (od : OutDict) (w : TimeSpan) (env : WindowEnv),
      summarySkip cfg.mode (fsLookup fs (destPath cfg w)).isSome w cfg.stopTs = false →
      staleSkip cfg.staleAge (fsMtime fs (destPath cfg w)) env.t_now = true →
      processWindow cfg fs od w env =
        Except.ok (fs, recordLabel cfg.lt cfg.mode w od, false)) := by
  refine ⟨?_, ?_, ?_, ?_⟩
  · intro st mt tNow
    cases st with
    | none => simp [staleSkip]
    | some s =>
      cases mt with
      | none => simp [staleSkip]
      | some m => simp [staleSkip]
  · intro mt tNow; rfl
  · intro st tNow; cases st <;> rfl
  · intro cfg fs od w env h1 h2
    unfold processWindow
    simp [h1, h2]

/-- Claim C4 witness: a fresh destination is skipped, an unset age never
skips. -/
theorem staleSkip_characterization_witness :
    staleSkip (some 10) (some 95) 100 = true ∧ staleSkip none (some 95) 100 = false :=
  ⟨(staleSkip_characterization.1 (some 10) (some 95) 100).mpr
      ⟨10, rfl, 95, rfl, by decide⟩,
   staleSkip_characterization.2.1 (some 95) 100⟩

/-! ## Claim C5: the outputted label lists -/

/-- Claim C5, code bug.  Recording the same ByMonth window twice in one
run appends the label 2024-01 twice: the duplicate check of line 267
tests the bare month string 01 for membership, but the list stores
labels of the form YYYY-MM, so the check never matches and the append of
line 268 always runs, contradicting the claim (and the parallel, correct
ByYear check of line 269). -/
theorem recordLabel_byMonth_duplicate :
    recordLabel ltJan2024 "SummaryByMonth" w0
        (recordLabel ltJan2024 "SummaryByMonth" w0 od0) =
      OutDict.mk ["2024-01", "2024-01"] [] ∧
    (OutDict.mk ["2024-01", "2024-01"] [] : OutDict).byMonth.Nodup = False := by
  constructor
  · decide
  · simp

/-! ## Claims C6 and C7: the window generator -/

/-- Claim C6, counterexample.  With summarization mode None and
start > stop, the in-source lambda of line 256 still builds the single
window TimeSpan(start, stop): the result is not the empty sequence. -/
theorem spangen_none_nonempty_counterexample :
    spangenFor someCal "None" 5 3 = [TimeSpan.mk 5 3] ∧
    spangenFor someCal "None" 5 3 ≠ [] := by decide

/-- Claim C6, amended.  For start > stop the ByMonth and ByYear span
generators yield the empty sequence, while mode None yields the single
window (start, stop) regardless of the ordering of start and stop. -/
theorem spangen_empty_or_single (C : CivilCalendar) (s e : Int) (h : e < s) :
    genMonthSpans C s e = [] ∧ genYearSpans C s e = [] ∧
    spangenFor C "SummaryByMonth" s e = [] ∧
    spangenFor C "SummaryByYear" s e = [] ∧
    spangenFor C "None" s e = [TimeSpan.mk s e] := by
  refine ⟨?_, ?_, ?_, ?_, ?_⟩ <;>
    simp [genMonthSpans, genYearSpans, spangenFor, h]

/-- Claim C6 witness at start 5, stop 3. -/
theorem spangen_empty_or_single_witness :
    (3 : Int) < 5 ∧
    (genMonthSpans someCal 5 3 = [] ∧ genYearSpans someCal 5 3 = [] ∧
      spangenFor someCal "SummaryByMonth" 5 3 = [] ∧
      spangenFor someCal "SummaryByYear" 5 3 = [] ∧
      spangenFor someCal "None" 5 3 = [TimeSpan.mk 5 3]) :=
  ⟨by decide, spangen_empty_or_single someCal 5 3 (by decide)⟩

/-- Claim C7.  For start le stop, mode None yields exactly the one window
whose start and stop are the given ones (the lambda of line 256). -/
theorem spangen_none_single_window (C : CivilCalendar) (s e : Int) (h : s ≤ e) :
    spangenFor C "None" s e = [TimeSpan.mk s e] := by
  simp [spangenFor]

/-- Claim C7 witness at start 1, stop 5. -/
theorem spangen_none_single_window_witness :
    (1 : Int) ≤ 5 ∧ spangenFor someCal "None" 1 5 = [TimeSpan.mk 1 5] :=
  ⟨by decide, spangen_none_single_window someCal 1 5 (by decide)⟩

/-! ## Claim C8: search list composition order -/

/-- Folding list-append over an accumulator is the accumulator followed by
the concatenation of the contributions, in order. -/
theorem foldl_append_eq {β γ : Type} (g : β → List γ) :
    ∀ (l : List β) (init : List γ),
      l.foldl (fun acc p => acc ++ g p) init = init ++ l.bind g := by
  intro l
  induction l with
  | nil => intro init; simp
  | cons p t ih =>
    intro init
    simp [List.foldl_cons, ih, List.append_assoc]

/-- Claim C8.  The composed search list is exactly: the synthetic bundle
with the window month name, year number and encoding mode; then the
outputted-labels snapshot; then each modern provider contribution list,
flattened in registration order; then one bundle per legacy provider in
registration order; and finally the always-empty backwards compatible
hook, which contributes nothing. -/
theorem getSearchList_composition (α δ : Type) (lt : Localtime) (enc : String)
    (od : OutDict) (modern : List (TimeSpan → δ → List α))
    (legacy : List (TimeSpan → δ → α)) (dbf : δ) (w : TimeSpan) :
    getSearchList α δ lt enc od modern legacy dbf w =
      SLEntry.synth (lt.monthName w.start) (lt.year w.start) enc ::
      SLEntry.snap od ::
      (modern.bind (fun p => (p w dbf).map SLEntry.ext) ++
        legacy.map (fun p => SLEntry.ext (p w dbf))) ∧
    getToDateSearchList α δ dbf dbf w = [] := by
  constructor
  · simp [getSearchList, getToDateSearchList, foldl_append_eq]
  · rfl

/-! ## Claim C9: destination filename derivation -/

/-- Claim C9, code bug.  The source (line 358) removes every occurrence of
.tmpl from the basename, not only a trailing suffix as both the claim and
the docstring of `_getFileName` describe: on the template
index.tmpl.html.tmpl the code produces index.html while stripping only the
trailing suffix produces index.tmpl.html. -/
theorem getFileName_strips_all_tmpl :
    getFileName ltJan2024 "index.tmpl.html.tmpl" w0 = "index.html" ∧
    specFileName ltJan2024 "index.tmpl.html.tmpl" w0 = "index.tmpl.html" ∧
    getFileName ltJan2024 "index.tmpl.html.tmpl" w0 ≠
      specFileName ltJan2024 "index.tmpl.html.tmpl" w0 := by decide

/-! ## Claim C10: the top-level summarize_by override -/

/-- Replacing an option in place leaves the first matching entry holding
the new value. -/
theorem find?_map_replace (k v : String) :
    ∀ l : List (String × String), l.any (fun p => p.1 == k) = true →
      ((l.map (fun p => if p.1 == k then (k, v) else p)).find?
        (fun p => p.1 == k)) = some (k, v) := by
  intro l
  induction l with
  | nil => intro h; simp at h
  | cons a t ih =>
    intro h
    by_cases ha : a.1 == k
    · simp [List.map_cons, List.find?, ha]
    · simp only [List.map_cons, ha, if_false, List.find?, Bool.false_eq_true]
      exact ih (by simpa [List.any_cons, ha] using h)

/-- Appending an entry to a list with no matching key makes it the one
found. -/
theorem find?_append_self (k v : String) :
    ∀ l : List (String × String), l.any (fun p => p.1 == k) = false →
      (l ++ [(k, v)]).find? (fun p => p.1 == k) = some (k, v) := by
  intro l
  induction l with
  | nil => intro _; simp [List.find?]
  | cons a t ih =>
    intro h
    have ha : (a.1 == k) = false := by
      by_contra hc
      simp [List.any_cons] at h
      exact absurd h.1 (by simpa using hc)
    simp only [List.cons_append, List.find?, ha]
    exact ih (by simpa [List.any_cons, ha] using h)

/-- ConfigObj assignment makes the assigned scalar readable, whether it
replaced an existing option or appended a new one. -/
theorem getScalar_setScalar (n : ConfigSec) (k v : String) :
    getScalar (setScalar n k v) k = some v := by
  unfold getScalar setScalar
  by_cases h : n.scalars.any (fun p => p.1 == k)
  · simp only [h, if_true, find?_map_replace k v n.scalars h, Option.map_some']
  · have hf : n.scalars.any (fun p => p.1 == k) = false := Bool.eq_false_iff.mpr h
    simp only [h, Bool.false_eq_true, if_false, find?_append_self k v n.scalars hf,
      Option.map_some']

/-- Folding the accumulation step over sections that do not define the
option leaves the accumulator unchanged. -/
theorem accumulateLeaves_all_none (k : String) :
    ∀ (l : List ConfigSec) (acc : Option String),
      (∀ n ∈ l, getScalar n k = none) →
      l.foldl
        (fun acc n =>
          match getScalar n k with
          | some v => some v
          | none => acc)
        acc = acc := by
  intro l
  induction l with
  | nil => intro acc _; rfl
  | cons a t ih =>
    intro acc h
    have ha := h a (List.mem_cons_self _ _)
    simp only [List.foldl_cons, ha]
    exact ih acc (fun n hn => h n (List.mem_cons_of_mem _ hn))

/-- Claim C10.  Run line 141 sets summarize_by of the top-level generator
section to the string None unconditionally, overriding any configured
value; a leaf whose path below the top section never sets summarize_by,
even after the SummaryByMonth and SummaryByYear subsection-name defaulting
of lines 215-219, therefore resolves summarize_by to None, and mode None
generates a single window. -/
theorem summarize_by_default_none (top : ConfigSec) (path : List (String × ConfigSec)) :
    getScalar (setScalar top "summarize_by" "None") "summarize_by" = some "None" ∧
    ((∀ n ∈ path.map (fun p => defaultSummary p.1 p.2),
        getScalar n "summarize_by" = none) →
      accumulateLeaves
        (setScalar top "summarize_by" "None" ::
          path.map (fun p => defaultSummary p.1 p.2))
        "summarize_by" = some "None") ∧
    (∀ (C : CivilCalendar) (s e : Int), spangenFor C "None" s e = [TimeSpan.mk s e]) := by
  refine ⟨getScalar_setScalar top _ _, ?_, ?_⟩
  · intro h
    unfold accumulateLeaves
    rw [List.foldl_cons]
    simp only [getScalar_setScalar]
    exact accumulateLeaves_all_none "summarize_by" _ (some "None") h
  · intro C s e
    simp [spangenFor]

/-- Claim C10 witness: a top section that itself configures
summarize_by = SummaryByMonth is overridden, and an ordinary subsection
path without the option resolves to None. -/
theorem summarize_by_default_none_witness :
    (∀ n ∈ path0.map (fun p => defaultSummary p.1 p.2),
      getScalar n "summarize_by" = none) ∧
    accumulateLeaves
      (setScalar top0 "summarize_by" "None" ::
        path0.map (fun p => defaultSummary p.1 p.2))
      "summarize_by" = some "None" :=
  ⟨by decide, (summarize_by_default_none top0 path0).2.1 (by decide)⟩

end Cheetah
